import Mathlib

/-!
Shallow embedding of the Xbox OAuth connection provider
(`src/connections/Xbox/index.ts` of sb-server).

The provider performs a three-stage token exchange
(authorization code → provider access token → XSTS session token → user claims)
and reconciles the resulting external identity against stored connection
records.  Network responses are inputs of the embedding (an environment
record fixes what each of the three HTTP endpoints answers), persistence is
explicit state passing on a list of connection records, and each operation
additionally returns the list of outbound network requests it issued, so
that "no network call is made" and "Stage C is never invoked" are provable
statements.

Members inherited from the base `Connection` class (the state codec,
`hasConnection`, `createConnection`) are not part of the sources; they are
modelled from the spec and marked as such.
-/

namespace Xbox

/-- JS truthiness of an optional string field (`if (res.error) ...`):
`undefined` and the empty string are falsy. -/
def truthy : Option String → Bool
  | none => false
  | some s => s ≠ ""

/-- JS `x || y` for an optional string `x` (`undefined` and `""` are falsy). -/
def jsOrElse (x : Option String) (y : String) : String :=
  match x with
  | none => y
  | some s => if s = "" then y else s

/-- JS stringification performed by using a possibly-`undefined` value where a
string is expected (the TS non-null assertion `x!` does not check at runtime;
template literals and `URLSearchParams` render `undefined` as `"undefined"`). -/
def jsString (x : Option String) : String :=
  match x with
  | none => "undefined"
  | some s => s

/-- `XboxSettings`: `{ clientId?, clientSecret? }`, loaded from configuration;
either may be absent. -/
structure XboxSettings where
  clientId : Option String
  clientSecret : Option String
  deriving DecidableEq, Repr

/-- The slice of the global `Config` the connector reads:
`Config.get().cdn.endpointPrivate` (possibly absent or empty). -/
structure Config where
  cdnEndpointPrivate : Option String
  deriving DecidableEq, Repr

/-- Modelled from the spec: the state codec of the base `Connection` class is
absent from the sources.  Per the spec, `createState` mints an opaque signed
token embedding the host user id plus integrity material, `validateState`
checks integrity/expiry, and `getUserId` extracts the embedded id.  The token
is modelled as the embedded id together with the verdict of the integrity and
expiry check (`intact`). -/
structure StateToken where
  userId : String
  intact : Bool
  deriving DecidableEq, Repr

/-- Modelled from the spec: `validateState` succeeds iff the token's
integrity/expiry check passes. -/
def validateState (st : StateToken) : Bool := st.intact

/-- Modelled from the spec: `getUserId` extracts the embedded host user id. -/
def getUserId (st : StateToken) : String := st.userId

/-- `ConnectedAccountCommonOAuthTokenResponse & XboxErrorResponse`: the parsed
JSON body of the Stage A token endpoint. -/
structure TokenBody where
  access_token : String
  token_type : String
  expires_in : Nat
  refresh_token : Option String
  error : Option String
  error_description : Option String
  deriving DecidableEq, Repr

/-- The parsed JSON body of the Stage B user-authentication endpoint.  The
code reads only `res.Token`, which a parseable body may lack (then `res.Token`
is `undefined`), so the field is optional. -/
structure UserTokenBody where
  Token : Option String
  deriving DecidableEq, Repr

/-- One entry of `DisplayClaims.xui` in the Stage C response (only the fields
the code reads). -/
structure XuiClaim where
  gtg : String
  xid : String
  deriving DecidableEq, Repr

/-- `XboxUserResponse & XboxErrorResponse`: the parsed JSON body of the
Stage C identity endpoint.  `DisplayClaims.xui` is an array the code indexes
without a bound check. -/
structure XboxUserBody where
  DisplayClaims_xui : List XuiClaim
  error : Option String
  error_description : Option String
  deriving DecidableEq, Repr

/-- An HTTP response as the code observes it: `ok` is `res.ok`, and `body` is
the outcome of `res.json()` (`none` when the body does not parse, in which
case `res.json()` rejects). -/
structure HttpResponse (β : Type) where
  ok : Bool
  body : Option β
  deriving DecidableEq, Repr

/-- The environment: what each of the three provider endpoints answers during
one callback.  All three operations are single attempts (no retries), so one
response per endpoint suffices. -/
structure Env where
  tokenResp : HttpResponse TokenBody
  userTokenResp : HttpResponse UserTokenBody
  userResp : HttpResponse XboxUserBody
  deriving Repr

/-- Errors as the caller observes them.  `invalidState` is
`InvalidStateError` from `validateState`; `invalidOauthToken` is
`DiscordApiErrors.INVALID_OAUTH_TOKEN`; `generalError` is
`DiscordApiErrors.GENERAL_ERROR`; `typeErr` is the uncaught TypeError raised
by accessing a property of `undefined` (the unguarded `xui[0]`). -/
inductive XboxError
  | invalidState
  | invalidOauthToken
  | generalError
  | typeErr
  deriving DecidableEq, Repr

/-- Errors thrown inside a stage's promise chain, all converted by that
stage's `.catch` before they reach the caller: `ApiError` for a non-ok HTTP
status, `jsonReject` for a rejecting `res.json()`, and `jsError` for
`new Error(res.error_description)`. -/
inductive StageError
  | apiError (message : String) (code : Nat) (httpStatus : Nat)
  | jsonReject
  | jsError (description : String)
  deriving DecidableEq, Repr

/-- Outbound network requests, carrying the request components the claims
talk about.  `tokenRequest` is Stage A's POST to the token endpoint (basic
auth is `Basic base64(clientId:clientSecret)`, carried here as the pair
before encoding); `userAuthRequest` is Stage B's POST (with the
`RpsTicket` value); `xstsRequest` is Stage C's POST (with the single entry
of `UserTokens`, possibly `undefined`). -/
inductive NetCall
  | tokenRequest (authUser authSecret : String)
      (grant_type code client_id redirect_uri scope : String)
  | userAuthRequest (rpsTicket : String)
  | xstsRequest (userToken : Option String)
  deriving DecidableEq, Repr

/-- Whether a request targets the Stage B endpoint. -/
def NetCall.isUserAuth : NetCall → Bool
  | .userAuthRequest _ => true
  | _ => false

/-- Whether a request targets the Stage C endpoint. -/
def NetCall.isXsts : NetCall → Bool
  | .xstsRequest _ => true
  | _ => false

/-- The `redirect_uri` component of a Stage A request. -/
def NetCall.redirectUri : NetCall → Option String
  | .tokenRequest _ _ _ _ _ r _ => some r
  | _ => none

/-- `this.scopes`. -/
def scopes : List String := ["Xboxlive.signin", "Xboxlive.offline_access"]

/-- `this.id`. -/
def xboxId : String := "xbox"

/-- `getAuthorizationUrl(userId)`: mints a state token and builds the
authorize URL.  The embedding returns the query parameters in the order they
are appended; `createState` lives in the absent base class, so the minted
state token is taken as an argument (its serialization is opaque and not
inspected by any claim). -/
def getAuthorizationUrl (settings : XboxSettings) (cfg : Config)
    (state : StateToken) : List (String × String) :=
  [("client_id", jsString settings.clientId),
   ("redirect_uri",
     jsOrElse cfg.cdnEndpointPrivate "http://localhost:3001"
       ++ "/connections/" ++ xboxId ++ "/callback"),
   ("response_type", "code"),
   ("scope", String.intercalate " " scopes),
   ("state", getUserId state),
   ("approval_prompt", "auto")]

/-- The `.then`/`.then` pipeline of `getUserToken`: throw `ApiError` on a
non-ok status, rethrow a rejecting `res.json()`, else read `res.Token`
(possibly `undefined`). -/
def getUserTokenPipeline (resp : HttpResponse UserTokenBody) :
    Except StageError (Option String) :=
  if resp.ok = false then
    .error (.apiError "Failed to get user token" 0 400)
  else
    match resp.body with
    | none => .error .jsonReject
    | some b => .ok b.Token

/-- `getUserToken(token)`: POSTs the RPS ticket `"d=" + token` to the user
authentication endpoint; any error of the pipeline is caught and replaced by
`DiscordApiErrors.INVALID_OAUTH_TOKEN`.  The fetch is issued unconditionally,
so the call list always holds the one request. -/
def getUserToken (env : Env) (token : String) :
    Except XboxError (Option String) × List NetCall :=
  (match getUserTokenPipeline env.userTokenResp with
   | .ok t => .ok t
   | .error _ => .error .invalidOauthToken,
   [NetCall.userAuthRequest ("d=" ++ token)])

/-- The `.then`/`.then` pipeline of `exchangeCode`: throw `ApiError` on a
non-ok status, rethrow a rejecting `res.json()`, throw
`new Error(res.error_description)` when the body's `error` field is truthy,
else return the body. -/
def exchangeCodePipeline (resp : HttpResponse TokenBody) :
    Except StageError TokenBody :=
  if resp.ok = false then
    .error (.apiError "Failed to exchange code" 0 400)
  else
    match resp.body with
    | none => .error .jsonReject
    | some b =>
      if truthy b.error then .error (.jsError (jsString b.error_description))
      else .ok b

/-- `exchangeCode(state, code)`: re-validates the state (a synchronous throw
of `InvalidStateError` before the fetch, not caught by the chain's `.catch`),
then POSTs the form-encoded token request with basic auth; any error of the
pipeline is caught and replaced by `DiscordApiErrors.GENERAL_ERROR`. -/
def exchangeCode (settings : XboxSettings) (cfg : Config) (env : Env)
    (state : StateToken) (code : String) :
    Except XboxError TokenBody × List NetCall :=
  if validateState state = false then
    (.error .invalidState, [])
  else
    (match exchangeCodePipeline env.tokenResp with
     | .ok b => .ok b
     | .error _ => .error .generalError,
     [NetCall.tokenRequest (jsString settings.clientId)
        (jsString settings.clientSecret)
        "authorization_code" code (jsString settings.clientId)
        (jsOrElse cfg.cdnEndpointPrivate "http://localhost:3001"
          ++ "/connections/" ++ xboxId ++ "/callback")
        (String.intercalate " " scopes)])

/-- The `.then`/`.then` pipeline of `getUser`: throw `ApiError` on a non-ok
status, rethrow a rejecting `res.json()`, throw
`new Error(res.error_description)` when `error` is truthy, else return the
body. -/
def getUserPipeline (resp : HttpResponse XboxUserBody) :
    Except StageError XboxUserBody :=
  if resp.ok = false then
    .error (.apiError "Failed to fetch user" 0 400)
  else
    match resp.body with
    | none => .error .jsonReject
    | some b =>
      if truthy b.error then .error (.jsError (jsString b.error_description))
      else .ok b

/-- `getUser(token)`: POSTs the session token inside `UserTokens`; any error
of the pipeline is caught and replaced by `DiscordApiErrors.GENERAL_ERROR`.
The argument may be `undefined` (Stage B returns `res.Token` unchecked). -/
def getUser (env : Env) (token : Option String) :
    Except XboxError XboxUserBody × List NetCall :=
  (match getUserPipeline env.userResp with
   | .ok b => .ok b
   | .error _ => .error .generalError,
   [NetCall.xstsRequest token])

/-- The persisted `token_data`: `{ ...tokenData, fetched_at: Date.now() }`. -/
structure StoredTokenData where
  access_token : String
  token_type : String
  expires_in : Nat
  refresh_token : Option String
  error : Option String
  error_description : Option String
  fetched_at : Nat
  deriving DecidableEq, Repr

/-- The spread `{ ...tokenData, fetched_at: now }`. -/
def tokenDataWithFetchedAt (b : TokenBody) (now : Nat) : StoredTokenData :=
  { access_token := b.access_token
    token_type := b.token_type
    expires_in := b.expires_in
    refresh_token := b.refresh_token
    error := b.error
    error_description := b.error_description
    fetched_at := now }

/-- `ConnectedAccount`: the persisted connection record (the fields
`createConnection` is given). -/
structure ConnectionRecord where
  token_data : StoredTokenData
  user_id : String
  external_id : String
  friend_sync : Option Bool
  name : String
  type : String
  deriving DecidableEq, Repr

/-- Modelled from the spec: `hasConnection` of the absent base class queries
existing connections for the (host user, provider tag, external id) triple. -/
def hasConnection (store : List ConnectionRecord)
    (typ userId externalId : String) : Bool :=
  store.any fun r =>
    r.type = typ && r.user_id = userId && r.external_id = externalId

/-- Modelled from the spec: `createConnection` of the absent base class
persists the record and returns it; the write is modelled as appending to the
store. -/
def createConnection (store : List ConnectionRecord) (r : ConnectionRecord) :
    List ConnectionRecord × ConnectionRecord :=
  (store ++ [r], r)

/-- `ConnectionCallbackSchema`: `{ state, code?, friend_sync? }`. -/
structure CallbackParams where
  state : StateToken
  code : Option String
  friend_sync : Option Bool
  deriving DecidableEq, Repr

/-- The outcome of `handleCallback`: the returned value (a created record,
or `null` for an already-linked account) or the propagated error, the
outbound requests in order, and the store after the call. -/
structure CallbackOutcome where
  result : Except XboxError (Option ConnectionRecord)
  calls : List NetCall
  store : List ConnectionRecord
  deriving Repr

/-- `handleCallback(params)`: recovers the host user id from the state, runs
the Stage A → B → C chain (each `await` propagates a rejection unchanged),
reads `userInfo.DisplayClaims.xui[0]` without a bound check (on an empty
array the property access throws an uncaught TypeError), then either returns
`null` for an existing (user, external id) link or persists exactly one new
record.  `params.code!` is passed through the non-null assertion, so an
absent code reaches the request as the string `"undefined"`. -/
def handleCallback (settings : XboxSettings) (cfg : Config) (env : Env)
    (store : List ConnectionRecord) (now : Nat) (params : CallbackParams) :
    CallbackOutcome :=
  let userId := getUserId params.state
  match exchangeCode settings cfg env params.state (jsString params.code) with
  | (.error e, callsA) => ⟨.error e, callsA, store⟩
  | (.ok tokenData, callsA) =>
    match getUserToken env tokenData.access_token with
    | (.error e, callsB) => ⟨.error e, callsA ++ callsB, store⟩
    | (.ok userToken, callsB) =>
      match getUser env userToken with
      | (.error e, callsC) => ⟨.error e, callsA ++ callsB ++ callsC, store⟩
      | (.ok userInfo, callsC) =>
        let calls := callsA ++ callsB ++ callsC
        match userInfo.DisplayClaims_xui.head? with
        | none => ⟨.error .typeErr, calls, store⟩
        | some xui0 =>
          if hasConnection store xboxId userId xui0.xid then
            ⟨.ok none, calls, store⟩
          else
            let written := createConnection store
              { token_data := tokenDataWithFetchedAt tokenData now
                user_id := userId
                external_id := xui0.xid
                friend_sync := params.friend_sync
                name := xui0.gtg
                type := xboxId }
            ⟨.ok (some written.2), calls, written.1⟩

/-! ### Concrete sample inputs used by witnesses and counterexamples -/

def sampleSettings : XboxSettings := ⟨some "cid", some "csecret"⟩

def sampleConfig : Config := ⟨some "https://cdn.example"⟩

def sampleState : StateToken := ⟨"u1", true⟩

def tamperedState : StateToken := ⟨"u1", false⟩

def sampleParams : CallbackParams := ⟨sampleState, some "abc123", some true⟩

def sampleTokenBody : TokenBody := ⟨"AT1", "bearer", 3600, none, none, none⟩

def sampleUserBody : XboxUserBody := ⟨[⟨"Gamer1", "X1"⟩], none, none⟩

def sampleEnv : Env :=
  ⟨⟨true, some sampleTokenBody⟩, ⟨true, some ⟨some "ST1"⟩⟩, ⟨true, some sampleUserBody⟩⟩

def envStageAFail : Env := { sampleEnv with tokenResp := ⟨false, none⟩ }

def envStageBFail : Env := { sampleEnv with userTokenResp := ⟨false, none⟩ }

def envStageCFail : Env := { sampleEnv with userResp := ⟨false, none⟩ }

def envMissingToken : Env := { sampleEnv with userTokenResp := ⟨true, some ⟨none⟩⟩ }

def envEmptyXui : Env := { sampleEnv with userResp := ⟨true, some ⟨[], none, none⟩⟩ }

def sampleRecord : ConnectionRecord :=
  { token_data := tokenDataWithFetchedAt sampleTokenBody 7
    user_id := "u1"
    external_id := "X1"
    friend_sync := some true
    name := "Gamer1"
    type := xboxId }

/-! ### Helper lemmas -/

/-- A successful `exchangeCode` means the state was valid and the token
pipeline succeeded on the environment's response. -/
theorem exchangeCode_fst_ok (settings : XboxSettings) (cfg : Config) (env : Env)
    (state : StateToken) (code : String) (tb : TokenBody) (calls : List NetCall)
    (h : exchangeCode settings cfg env state code = (.ok tb, calls)) :
    exchangeCodePipeline env.tokenResp = .ok tb ∧ validateState state = true := by
  unfold exchangeCode at h
  split at h
  · simp_all
  · constructor
    · split at h <;> simp_all
    · simp_all

/-- A successful `getUserToken` means the user-token pipeline succeeded. -/
theorem getUserToken_fst_ok (env : Env) (token : String) (t : Option String)
    (calls : List NetCall)
    (h : getUserToken env token = (.ok t, calls)) :
    getUserTokenPipeline env.userTokenResp = .ok t := by
  unfold getUserToken at h
  split at h <;> simp_all

/-- A successful `getUser` means the identity pipeline succeeded. -/
theorem getUser_fst_ok (env : Env) (token : Option String) (ub : XboxUserBody)
    (calls : List NetCall)
    (h : getUser env token = (.ok ub, calls)) :
    getUserPipeline env.userResp = .ok ub := by
  unfold getUser at h
  split at h <;> simp_all

/-! ### Claim theorems -/

/-- C5: for every state token and code, `exchangeCode` validates the state
before issuing its HTTP request: a tampered, expired or malformed state
(one whose integrity/expiry check fails) is rejected with `InvalidStateError`
and no network call is made in that invocation. -/
theorem exchangeCode_rejects_invalid_state_before_network
    (settings : XboxSettings) (cfg : Config) (env : Env)
    (state : StateToken) (code : String)
    (h : validateState state = false) :
    exchangeCode settings cfg env state code =
      (Except.error XboxError.invalidState, []) := by
  unfold exchangeCode
  rw [h]
  rfl

/-- Witness for C5 at a concrete tampered state. -/
theorem exchangeCode_rejects_invalid_state_before_network_witness :
    validateState tamperedState = false ∧
    exchangeCode sampleSettings sampleConfig sampleEnv tamperedState "abc123" =
      (Except.error XboxError.invalidState, []) :=
  ⟨rfl, exchangeCode_rejects_invalid_state_before_network
    sampleSettings sampleConfig sampleEnv tamperedState "abc123" rfl⟩

/-- C9: for every configuration, the `redirect_uri` query parameter embedded
by `getAuthorizationUrl` equals the `redirect_uri` field of the form-encoded
token request `exchangeCode` sends. -/
theorem redirect_uri_consistent
    (settings : XboxSettings) (cfg : Config) (env : Env)
    (authState state : StateToken) (code : String)
    (h : validateState state = true) :
    ∃ ru,
      (getAuthorizationUrl settings cfg authState).lookup "redirect_uri" =
        some ru ∧
      (exchangeCode settings cfg env state code).2.map NetCall.redirectUri =
        [some ru] := by
  refine ⟨jsOrElse cfg.cdnEndpointPrivate "http://localhost:3001"
    ++ "/connections/" ++ xboxId ++ "/callback", ?_, ?_⟩
  · rfl
  · unfold exchangeCode
    rw [h]
    simp [NetCall.redirectUri]

/-- Witness for C9 at a concrete configuration and state. -/
theorem redirect_uri_consistent_witness :
    validateState sampleState = true ∧
    ∃ ru,
      (getAuthorizationUrl sampleSettings sampleConfig sampleState).lookup
        "redirect_uri" = some ru ∧
      (exchangeCode sampleSettings sampleConfig sampleEnv sampleState
        "abc123").2.map NetCall.redirectUri = [some ru] :=
  ⟨rfl, redirect_uri_consistent sampleSettings sampleConfig sampleEnv
    sampleState sampleState "abc123" rfl⟩

/-- C2: when the three-stage chain succeeds and a connection record already
exists for the pair (host user, first claims entry's `xid`), `handleCallback`
returns `null` and performs no persistence write. -/
theorem handleCallback_existing_link_noop
    (settings : XboxSettings) (cfg : Config) (env : Env)
    (store : List ConnectionRecord) (now : Nat) (params : CallbackParams)
    (tb : TokenBody) (tok : Option String) (ub : XboxUserBody) (x : XuiClaim)
    (hV : validateState params.state = true)
    (hA : exchangeCodePipeline env.tokenResp = .ok tb)
    (hB : getUserTokenPipeline env.userTokenResp = .ok tok)
    (hC : getUserPipeline env.userResp = .ok ub)
    (hx : ub.DisplayClaims_xui.head? = some x)
    (hex : hasConnection store xboxId (getUserId params.state) x.xid = true) :
    (handleCallback settings cfg env store now params).result =
      Except.ok none ∧
    (handleCallback settings cfg env store now params).store = store := by
  unfold handleCallback exchangeCode getUserToken getUser
  rw [hV]
  simp [hA, hB, hC, hx, hex]

/-- Witness for C2: a second identical callback for an already-stored link
returns `null` and leaves the store unchanged. -/
theorem handleCallback_existing_link_noop_witness :
    (handleCallback sampleSettings sampleConfig sampleEnv [sampleRecord] 7
      sampleParams).result = Except.ok none ∧
    (handleCallback sampleSettings sampleConfig sampleEnv [sampleRecord] 7
      sampleParams).store = [sampleRecord] :=
  handleCallback_existing_link_noop sampleSettings sampleConfig sampleEnv
    [sampleRecord] 7 sampleParams sampleTokenBody (some "ST1") sampleUserBody
    ⟨"Gamer1", "X1"⟩ rfl rfl rfl rfl rfl rfl

/-- C3: when the three-stage chain succeeds and no prior record exists,
`handleCallback` creates exactly one record whose `external_id` is the first
claims entry's `xid`, whose `name` is its `gtg`, whose `token_data` is the
Stage A token response extended with `fetched_at` set to the current time,
and whose `user_id`, `friend_sync` and `type` come from the recovered host
user id, the callback's `friend_sync` parameter and the provider tag. -/
theorem handleCallback_creates_record
    (settings : XboxSettings) (cfg : Config) (env : Env)
    (store : List ConnectionRecord) (now : Nat) (params : CallbackParams)
    (tb : TokenBody) (tok : Option String) (ub : XboxUserBody) (x : XuiClaim)
    (hV : validateState params.state = true)
    (hA : exchangeCodePipeline env.tokenResp = .ok tb)
    (hB : getUserTokenPipeline env.userTokenResp = .ok tok)
    (hC : getUserPipeline env.userResp = .ok ub)
    (hx : ub.DisplayClaims_xui.head? = some x)
    (hex : hasConnection store xboxId (getUserId params.state) x.xid = false) :
    (handleCallback settings cfg env store now params).result =
      Except.ok (some
        { token_data := tokenDataWithFetchedAt tb now
          user_id := getUserId params.state
          external_id := x.xid
          friend_sync := params.friend_sync
          name := x.gtg
          type := xboxId }) ∧
    (handleCallback settings cfg env store now params).store =
      store ++ [{ token_data := tokenDataWithFetchedAt tb now
                  user_id := getUserId params.state
                  external_id := x.xid
                  friend_sync := params.friend_sync
                  name := x.gtg
                  type := xboxId }] := by
  unfold handleCallback exchangeCode getUserToken getUser
  rw [hV]
  simp [hA, hB, hC, hx, hex, createConnection]

/-- Witness for C3: the end-to-end scenario of the spec, creating the
expected record from an empty store. -/
theorem handleCallback_creates_record_witness :
    (handleCallback sampleSettings sampleConfig sampleEnv [] 7
      sampleParams).result = Except.ok (some sampleRecord) ∧
    (handleCallback sampleSettings sampleConfig sampleEnv [] 7
      sampleParams).store = [sampleRecord] :=
  handleCallback_creates_record sampleSettings sampleConfig sampleEnv
    [] 7 sampleParams sampleTokenBody (some "ST1") sampleUserBody
    ⟨"Gamer1", "X1"⟩ rfl rfl rfl rfl rfl rfl

/-- C10: `handleCallback` reads `DisplayClaims.xui[0]` without a bound
check: when the Stage C response succeeds with an empty `xui` array, the
callback neither returns a record nor `null` nor one of the classified
provider errors, but fails on the unguarded index (the total embedding's
`typeErr` branch), leaving the store unchanged. -/
theorem handleCallback_empty_xui_unguarded
    (settings : XboxSettings) (cfg : Config) (env : Env)
    (store : List ConnectionRecord) (now : Nat) (params : CallbackParams)
    (tb : TokenBody) (tok : Option String) (ub : XboxUserBody)
    (hV : validateState params.state = true)
    (hA : exchangeCodePipeline env.tokenResp = .ok tb)
    (hB : getUserTokenPipeline env.userTokenResp = .ok tok)
    (hC : getUserPipeline env.userResp = .ok ub)
    (hx : ub.DisplayClaims_xui = []) :
    (handleCallback settings cfg env store now params).result =
      Except.error XboxError.typeErr ∧
    XboxError.typeErr ≠ XboxError.invalidState ∧
    XboxError.typeErr ≠ XboxError.invalidOauthToken ∧
    XboxError.typeErr ≠ XboxError.generalError ∧
    (handleCallback settings cfg env store now params).store = store := by
  unfold handleCallback exchangeCode getUserToken getUser
  rw [hV]
  simp [hA, hB, hC, hx]

/-- Witness for C10: a concrete Stage C success carrying an empty `xui`
array makes `handleCallback` hit the unguarded index. -/
theorem handleCallback_empty_xui_unguarded_witness :
    (handleCallback sampleSettings sampleConfig envEmptyXui [] 7
      sampleParams).result = Except.error XboxError.typeErr ∧
    XboxError.typeErr ≠ XboxError.invalidState ∧
    XboxError.typeErr ≠ XboxError.invalidOauthToken ∧
    XboxError.typeErr ≠ XboxError.generalError ∧
    (handleCallback sampleSettings sampleConfig envEmptyXui [] 7
      sampleParams).store = [] :=
  handleCallback_empty_xui_unguarded sampleSettings sampleConfig envEmptyXui
    [] 7 sampleParams sampleTokenBody (some "ST1") ⟨[], none, none⟩
    rfl rfl rfl rfl rfl

/-- C1: write discipline of `handleCallback`.  Any failing stage's error is
propagated unchanged with the store untouched; the store is touched only on
the full success path with no prior record, and then exactly one record is
appended, which requires all three pipelines and the existence check to have
succeeded. -/
theorem handleCallback_write_discipline
    (settings : XboxSettings) (cfg : Config) (env : Env)
    (store : List ConnectionRecord) (now : Nat) (params : CallbackParams)
    (out : CallbackOutcome)
    (hout : out = handleCallback settings cfg env store now params) :
    (∀ e, (exchangeCode settings cfg env params.state (jsString params.code)).1 =
        Except.error e → out.result = Except.error e ∧ out.store = store) ∧
    (∀ tb e, (exchangeCode settings cfg env params.state (jsString params.code)).1 =
        Except.ok tb →
      (getUserToken env tb.access_token).1 = Except.error e →
      out.result = Except.error e ∧ out.store = store) ∧
    (∀ tb tok e, (exchangeCode settings cfg env params.state (jsString params.code)).1 =
        Except.ok tb →
      (getUserToken env tb.access_token).1 = Except.ok tok →
      (getUser env tok).1 = Except.error e →
      out.result = Except.error e ∧ out.store = store) ∧
    (∀ e, out.result = Except.error e → out.store = store) ∧
    (out.result = Except.ok none → out.store = store) ∧
    (∀ r, out.result = Except.ok (some r) →
      out.store = store ++ [r] ∧
      (∃ tb, exchangeCodePipeline env.tokenResp = Except.ok tb) ∧
      (∃ tok, getUserTokenPipeline env.userTokenResp = Except.ok tok) ∧
      (∃ ub, getUserPipeline env.userResp = Except.ok ub) ∧
      hasConnection store xboxId (getUserId params.state) r.external_id = false) ∧
    (∀ tb tok ub x,
      (exchangeCode settings cfg env params.state (jsString params.code)).1 =
        Except.ok tb →
      (getUserToken env tb.access_token).1 = Except.ok tok →
      (getUser env tok).1 = Except.ok ub →
      ub.DisplayClaims_xui.head? = some x →
      hasConnection store xboxId (getUserId params.state) x.xid = false →
      ∃ r, out.result = Except.ok (some r) ∧ out.store = store ++ [r]) := by
  subst hout
  unfold handleCallback
  cases heqA : exchangeCode settings cfg env params.state (jsString params.code) with
  | mk rA callsA =>
    cases rA with
    | error e => refine ⟨?_, ?_, ?_, ?_, ?_, ?_, ?_⟩ <;> intros <;> simp_all
    | ok tb =>
      cases heqB : getUserToken env tb.access_token with
      | mk rB callsB =>
        cases rB with
        | error e => refine ⟨?_, ?_, ?_, ?_, ?_, ?_, ?_⟩ <;> intros <;> simp_all
        | ok tok =>
          cases heqC : getUser env tok with
          | mk rC callsC =>
            cases rC with
            | error e => refine ⟨?_, ?_, ?_, ?_, ?_, ?_, ?_⟩ <;> intros <;> simp_all
            | ok ub =>
              cases hx : ub.DisplayClaims_xui.head? with
              | none => refine ⟨?_, ?_, ?_, ?_, ?_, ?_, ?_⟩ <;> intros <;> simp_all
              | some x =>
                by_cases hex :
                  hasConnection store xboxId (getUserId params.state) x.xid = true
                · refine ⟨?_, ?_, ?_, ?_, ?_, ?_, ?_⟩ <;> intros <;> simp_all
                · refine ⟨?_, ?_, ?_, ?_, ?_, ?_, ?_⟩
                  · intros; simp_all
                  · intros; simp_all
                  · intros; simp_all
                  · intros; simp_all
                  · intros; simp_all
                  · intro r hr
                    simp only [heqB, heqC, hx, if_neg hex, createConnection,
                      Except.ok.injEq, Option.some.injEq] at hr
                    subst hr
                    refine ⟨?_,
                      ⟨tb, (exchangeCode_fst_ok settings cfg env params.state
                        (jsString params.code) tb callsA heqA).1⟩,
                      ⟨tok, getUserToken_fst_ok env tb.access_token tok callsB heqB⟩,
                      ⟨ub, getUser_fst_ok env tok ub callsC heqC⟩, ?_⟩
                    · simp [heqB, heqC, hx, if_neg hex, createConnection]
                    · simpa using hex
                  · intro tb' tok' ub' x' h1 h2 h3 h4 h5
                    exact ⟨{ token_data := tokenDataWithFetchedAt tb now
                             user_id := getUserId params.state
                             external_id := x.xid
                             friend_sync := params.friend_sync
                             name := x.gtg
                             type := xboxId },
                      by simp [heqB, heqC, hx, if_neg hex, createConnection],
                      by simp [heqB, heqC, hx, if_neg hex, createConnection]⟩

/-- Witness for C1: a concrete Stage A HTTP failure is propagated as
`GENERAL_ERROR` with the empty store untouched. -/
theorem handleCallback_write_discipline_witness :
    ((handleCallback sampleSettings sampleConfig envStageAFail [] 7
        sampleParams).result = Except.error XboxError.generalError ∧
      (handleCallback sampleSettings sampleConfig envStageAFail [] 7
        sampleParams).store = []) ∧
    ∃ r, (handleCallback sampleSettings sampleConfig sampleEnv [] 7
        sampleParams).result = Except.ok (some r) ∧
      (handleCallback sampleSettings sampleConfig sampleEnv [] 7
        sampleParams).store = [] ++ [r] :=
  ⟨(handleCallback_write_discipline sampleSettings sampleConfig envStageAFail
      [] 7 sampleParams
      (handleCallback sampleSettings sampleConfig envStageAFail [] 7
        sampleParams) rfl).1
    XboxError.generalError rfl,
   (handleCallback_write_discipline sampleSettings sampleConfig sampleEnv
      [] 7 sampleParams
      (handleCallback sampleSettings sampleConfig sampleEnv [] 7
        sampleParams) rfl).2.2.2.2.2.2
    sampleTokenBody (some "ST1") sampleUserBody ⟨"Gamer1", "X1"⟩
    rfl rfl rfl rfl rfl⟩

/-- Whether an internal pipeline result is a success. -/
def pipelineOk {α : Type} : Except StageError α → Bool
  | .ok _ => true
  | .error _ => false

def settingsNoCreds : XboxSettings := ⟨none, none⟩

def paramsEmptyCode : CallbackParams := ⟨sampleState, some "", some true⟩

/-- C4 counterexample: a Stage A HTTP failure and a Stage C HTTP failure
produce the same caller-visible error (`GENERAL_ERROR`), so the three stage
error kinds are not pairwise distinct. -/
theorem stage_error_kinds_cex :
    (handleCallback sampleSettings sampleConfig envStageAFail [] 7
      sampleParams).result = Except.error XboxError.generalError ∧
    (handleCallback sampleSettings sampleConfig envStageCFail [] 7
      sampleParams).result = Except.error XboxError.generalError :=
  ⟨rfl, rfl⟩

/-- C4 (amended): each stage maps its failures to a fixed error kind, but
only Stage B's is distinct: Stage A and Stage C failures both surface as
`GENERAL_ERROR`, while Stage B failures surface as `INVALID_OAUTH_TOKEN`. -/
theorem stage_error_kinds_amended
    (settings : XboxSettings) (cfg : Config) (env : Env)
    (store : List ConnectionRecord) (now : Nat) (params : CallbackParams)
    (tb : TokenBody) (tok : Option String)
    (hV : validateState params.state = true) :
    (pipelineOk (exchangeCodePipeline env.tokenResp) = false →
      (handleCallback settings cfg env store now params).result =
        Except.error XboxError.generalError) ∧
    (exchangeCodePipeline env.tokenResp = Except.ok tb →
      pipelineOk (getUserTokenPipeline env.userTokenResp) = false →
      (handleCallback settings cfg env store now params).result =
        Except.error XboxError.invalidOauthToken) ∧
    (exchangeCodePipeline env.tokenResp = Except.ok tb →
      getUserTokenPipeline env.userTokenResp = Except.ok tok →
      pipelineOk (getUserPipeline env.userResp) = false →
      (handleCallback settings cfg env store now params).result =
        Except.error XboxError.generalError) ∧
    XboxError.invalidOauthToken ≠ XboxError.generalError := by
  refine ⟨?_, ?_, ?_, by simp⟩
  · intro h
    unfold handleCallback exchangeCode
    rw [hV]
    cases hp : exchangeCodePipeline env.tokenResp with
    | ok b => rw [hp] at h; simp [pipelineOk] at h
    | error e => simp [hp]
  · intro hA hB
    unfold handleCallback exchangeCode getUserToken
    rw [hV]
    cases hp : getUserTokenPipeline env.userTokenResp with
    | ok t => rw [hp] at hB; simp [pipelineOk] at hB
    | error e => simp [hA, hp]
  · intro hA hB hC
    unfold handleCallback exchangeCode getUserToken getUser
    rw [hV]
    cases hp : getUserPipeline env.userResp with
    | ok b => rw [hp] at hC; simp [pipelineOk] at hC
    | error e => simp [hA, hB, hp]

/-- Witness for the amended C4: a concrete Stage B failure surfaces as
`INVALID_OAUTH_TOKEN`. -/
theorem stage_error_kinds_amended_witness :
    (handleCallback sampleSettings sampleConfig envStageBFail [] 7
      sampleParams).result = Except.error XboxError.invalidOauthToken :=
  (stage_error_kinds_amended sampleSettings sampleConfig envStageBFail [] 7
      sampleParams sampleTokenBody (some "ST1") rfl).2.1 rfl rfl

/-- C6 counterexample: a parseable Stage B response that lacks the `Token`
field (malformed with respect to the declared response schema) is not
detected: Stage C is invoked with the missing token and the callback does
not fail with `INVALID_OAUTH_TOKEN` — it runs to a successful completion. -/
theorem stageB_malformed_not_detected_cex :
    (handleCallback sampleSettings sampleConfig envMissingToken [] 7
      sampleParams).calls =
      [NetCall.tokenRequest "cid" "csecret" "authorization_code" "abc123"
        "cid" "https://cdn.example/connections/xbox/callback"
        "Xboxlive.signin Xboxlive.offline_access",
       NetCall.userAuthRequest "d=AT1",
       NetCall.xstsRequest none] ∧
    (handleCallback sampleSettings sampleConfig envMissingToken [] 7
      sampleParams).result = Except.ok (some sampleRecord) :=
  ⟨rfl, rfl⟩

/-- C6 (amended): a Stage B HTTP failure or unparseable body fails the
callback with `INVALID_OAUTH_TOKEN`, Stage C is never invoked, and the store
is unchanged; a parseable body merely missing `Token` is not detected (see
the counterexample). -/
theorem stageB_failure_stops_chain
    (settings : XboxSettings) (cfg : Config) (env : Env)
    (store : List ConnectionRecord) (now : Nat) (params : CallbackParams)
    (tb : TokenBody)
    (hV : validateState params.state = true)
    (hA : exchangeCodePipeline env.tokenResp = Except.ok tb)
    (hB : env.userTokenResp.ok = false ∨ env.userTokenResp.body = none) :
    (handleCallback settings cfg env store now params).result =
      Except.error XboxError.invalidOauthToken ∧
    (handleCallback settings cfg env store now params).calls.any
      NetCall.isXsts = false ∧
    (handleCallback settings cfg env store now params).store = store := by
  have hp : ∃ e, getUserTokenPipeline env.userTokenResp = Except.error e := by
    unfold getUserTokenPipeline
    rcases hB with h | h
    · rw [h]; exact ⟨_, rfl⟩
    · rw [h]
      split
      · exact ⟨_, rfl⟩
      · exact ⟨_, rfl⟩
  obtain ⟨e, hp⟩ := hp
  unfold handleCallback exchangeCode getUserToken
  rw [hV]
  simp [hA, hp, NetCall.isXsts]

/-- Witness for the amended C6: a concrete Stage B HTTP failure stops the
chain before Stage C. -/
theorem stageB_failure_stops_chain_witness :
    (handleCallback sampleSettings sampleConfig envStageBFail [] 7
      sampleParams).result = Except.error XboxError.invalidOauthToken ∧
    (handleCallback sampleSettings sampleConfig envStageBFail [] 7
      sampleParams).calls.any NetCall.isXsts = false ∧
    (handleCallback sampleSettings sampleConfig envStageBFail [] 7
      sampleParams).store = [] :=
  stageB_failure_stops_chain sampleSettings sampleConfig envStageBFail [] 7
    sampleParams sampleTokenBody rfl rfl (Or.inl rfl)

/-- C7 counterexample: with both credentials absent from the settings,
`getAuthorizationUrl` still builds the URL (embedding the literal string
"undefined" as `client_id`) and `exchangeCode` still sends the token request
with "undefined" credentials — no fail-fast occurs. -/
theorem missing_credentials_cex :
    (getAuthorizationUrl settingsNoCreds sampleConfig sampleState).head? =
      some ("client_id", "undefined") ∧
    (exchangeCode settingsNoCreds sampleConfig sampleEnv sampleState
      "abc123").2 =
      [NetCall.tokenRequest "undefined" "undefined" "authorization_code"
        "abc123" "undefined" "https://cdn.example/connections/xbox/callback"
        "Xboxlive.signin Xboxlive.offline_access"] :=
  ⟨rfl, rfl⟩

/-- C7 (amended): absence of `clientId` does not prevent either function
from constructing requests: the non-null assertions pass the absent value
through, so `getAuthorizationUrl` embeds the literal string "undefined" as
`client_id` and `exchangeCode` issues its network request with "undefined"
in the credential positions. -/
theorem missing_credentials_pass_through
    (settings : XboxSettings) (cfg : Config) (env : Env) (state : StateToken)
    (code : String)
    (hid : settings.clientId = none)
    (hV : validateState state = true) :
    (getAuthorizationUrl settings cfg state).head? =
      some ("client_id", "undefined") ∧
    (exchangeCode settings cfg env state code).2 =
      [NetCall.tokenRequest "undefined" (jsString settings.clientSecret)
        "authorization_code" code "undefined"
        (jsOrElse cfg.cdnEndpointPrivate "http://localhost:3001"
          ++ "/connections/" ++ xboxId ++ "/callback")
        (String.intercalate " " scopes)] := by
  constructor
  · simp [getAuthorizationUrl, hid, jsString]
  · unfold exchangeCode
    rw [hV]
    simp [hid, jsString]

/-- Witness for the amended C7 at concrete credential-less settings. -/
theorem missing_credentials_pass_through_witness :
    (getAuthorizationUrl settingsNoCreds sampleConfig sampleState).head? =
      some ("client_id", "undefined") ∧
    (exchangeCode settingsNoCreds sampleConfig sampleEnv sampleState
      "xyz").2 =
      [NetCall.tokenRequest "undefined" (jsString settingsNoCreds.clientSecret)
        "authorization_code" "xyz" "undefined"
        (jsOrElse sampleConfig.cdnEndpointPrivate "http://localhost:3001"
          ++ "/connections/" ++ xboxId ++ "/callback")
        (String.intercalate " " scopes)] :=
  missing_credentials_pass_through settingsNoCreds sampleConfig sampleEnv
    sampleState "xyz" rfl rfl

/-- C8 counterexample: with an empty `code` and a provider response that
accepts it, `handleCallback` does not fail at all — Stage B is invoked and
the callback completes — so no local empty-code rejection exists. -/
theorem empty_code_not_rejected_cex :
    (handleCallback sampleSettings sampleConfig sampleEnv [] 7
      paramsEmptyCode).calls.any NetCall.isUserAuth = true ∧
    (handleCallback sampleSettings sampleConfig sampleEnv [] 7
      paramsEmptyCode).result = Except.ok (some sampleRecord) :=
  ⟨rfl, rfl⟩

/-- C8 (amended): `handleCallback` performs no local check on `code`: the
Stage A request is sent carrying the empty code, and Stages B and C are
unattempted exactly when that exchange fails (as it does when the provider
rejects the empty code), in which case the callback fails with
`GENERAL_ERROR` and the store is unchanged. -/
theorem empty_code_no_local_check
    (settings : XboxSettings) (cfg : Config) (env : Env)
    (store : List ConnectionRecord) (now : Nat) (params : CallbackParams)
    (hV : validateState params.state = true)
    (hc : params.code = some "")
    (hA : pipelineOk (exchangeCodePipeline env.tokenResp) = false) :
    (handleCallback settings cfg env store now params).result =
      Except.error XboxError.generalError ∧
    (handleCallback settings cfg env store now params).calls =
      [NetCall.tokenRequest (jsString settings.clientId)
        (jsString settings.clientSecret) "authorization_code" ""
        (jsString settings.clientId)
        (jsOrElse cfg.cdnEndpointPrivate "http://localhost:3001"
          ++ "/connections/" ++ xboxId ++ "/callback")
        (String.intercalate " " scopes)] ∧
    (handleCallback settings cfg env store now params).calls.any
      NetCall.isUserAuth = false ∧
    (handleCallback settings cfg env store now params).calls.any
      NetCall.isXsts = false ∧
    (handleCallback settings cfg env store now params).store = store := by
  unfold handleCallback exchangeCode
  rw [hV, hc]
  cases hp : exchangeCodePipeline env.tokenResp with
  | ok b => rw [hp] at hA; simp [pipelineOk] at hA
  | error e => simp [hp, jsString, NetCall.isUserAuth, NetCall.isXsts]

/-- Witness for the amended C8: an empty code with a rejecting provider. -/
theorem empty_code_no_local_check_witness :
    (handleCallback sampleSettings sampleConfig envStageAFail [] 7
      paramsEmptyCode).result = Except.error XboxError.generalError ∧
    (handleCallback sampleSettings sampleConfig envStageAFail [] 7
      paramsEmptyCode).calls =
      [NetCall.tokenRequest (jsString sampleSettings.clientId)
        (jsString sampleSettings.clientSecret) "authorization_code" ""
        (jsString sampleSettings.clientId)
        (jsOrElse sampleConfig.cdnEndpointPrivate "http://localhost:3001"
          ++ "/connections/" ++ xboxId ++ "/callback")
        (String.intercalate " " scopes)] ∧
    (handleCallback sampleSettings sampleConfig envStageAFail [] 7
      paramsEmptyCode).calls.any NetCall.isUserAuth = false ∧
    (handleCallback sampleSettings sampleConfig envStageAFail [] 7
      paramsEmptyCode).calls.any NetCall.isXsts = false ∧
    (handleCallback sampleSettings sampleConfig envStageAFail [] 7
      paramsEmptyCode).store = [] :=
  empty_code_no_local_check sampleSettings sampleConfig envStageAFail [] 7
    paramsEmptyCode rfl rfl rfl

end Xbox
